import Mathlib

/-!
Verification of the CyberRakshak message-classification and URL-checking core.

The definitions below are a shallow embedding of the classification engine of
this repository: bilingual keyword matching, the local classifier
(analyze_message_local), the remote-first waterfall of analyze_message, the
escalation (emergency-keyword) check, the Gemini adapter's failure behaviour,
and the URL safety check of both the CLI and the Telegram front end.
Python floats are modelled as rationals, substring tests on Python strings as
character-list containment, and the network-facing calls as explicit
environment values describing the remote outcome.
-/

set_option maxRecDepth 100000

namespace CyberRakshak

/-- Executable minimum on the rationals, written with the boolean comparison
`Rat.blt` so that it evaluates inside the kernel; it models Python's
two-argument `min`. -/
def ratMin (a b : ℚ) : ℚ :=
  if Rat.blt b a then b else a

/-- Threat categories recognised by the classifier: the `threat_type` keys of
the catalog in the source, plus `none` for safe messages. -/
inductive ThreatType where
  | phishing
  | otp_scam
  | job_fraud
  | fake_link
  | none
  deriving DecidableEq, Repr

/-- The two interface languages of the application. -/
inductive Language where
  | english
  | hindi
  deriving DecidableEq, Repr

/-- The two keyword lists of one catalog entry (`keywords` and
`hindi_keywords` in the source). -/
structure PatternSet where
  keywords : List String
  hindi_keywords : List String
  deriving DecidableEq, Repr

/-- Whether the list `p` is an initial segment of `s` (character lists). -/
def startsList : List Char → List Char → Bool
  | [], _ => true
  | _ :: _, [] => false
  | a :: p, b :: s => a == b && startsList p s

/-- Whether `p` occurs as a contiguous run inside `s`; this is Python's
substring operator on the character lists of the two strings. -/
def hasSub (p : List Char) : List Char → Bool
  | [] => startsList p []
  | b :: s => startsList p (b :: s) || hasSub p s

/-- Python's `needle in haystack` on strings. -/
def strContains (haystack needle : String) : Bool :=
  hasSub needle.data haystack.data

/-- Python's `str.lower()` restricted to ASCII case, which covers every
catalog keyword (Latin keywords are already lower-case ASCII and Devanagari
has no case). -/
def lowerString (s : String) : String :=
  ⟨s.data.map Char.toLower⟩

/-- The phishing catalog entry of `scam_patterns`. -/
def phishing_patterns : PatternSet where
  keywords := [
    "click here", "verify account", "suspended account", "urgent action",
    "confirm identity", "update payment", "security alert", "limited time",
    "claim reward", "congratulations", "winner", "prize", "lottery",
    "bank account", "credit card", "debit card", "atm", "pin"]
  hindi_keywords := [
    "यहाँ क्लिक करें", "खाता सत्यापित करें", "तुरंत कार्रवाई", "पहचान पुष्टि",
    "बैंक खाता", "एटीएम", "पिन", "इनाम", "लॉटरी", "जीतने वाले"]

/-- The otp_scam catalog entry of `scam_patterns`. -/
def otp_scam_patterns : PatternSet where
  keywords := [
    "otp", "one time password", "verification code", "security code",
    "pin", "passcode", "authentication", "share otp", "send otp",
    "confirm otp", "validate", "activate"]
  hindi_keywords := [
    "ओटीपी", "वन टाइम पासवर्ड", "सत्यापन कोड", "सुरक्षा कोड",
    "पिन", "पासकोड", "साझा करें", "भेजें"]

/-- The job_fraud catalog entry of `scam_patterns`. -/
def job_fraud_patterns : PatternSet where
  keywords := [
    "work from home", "easy money", "part time job", "registration fee",
    "advance payment", "guaranteed income", "no experience required",
    "data entry", "copy paste", "survey work", "earn daily"]
  hindi_keywords := [
    "घर से काम", "आसान पैसा", "पार्ट टाइम जॉब", "रजिस्ट्रेशन फीस",
    "अग्रिम भुगतान", "गारंटीड आय", "डेटा एंट्री", "रोज कमाएं"]

/-- The fake_link catalog entry of `scam_patterns`. -/
def fake_link_patterns : PatternSet where
  keywords := [
    "bit.ly", "tinyurl", "shortened link", "suspicious domain",
    "free download", "install app", "update required", "security patch"]
  hindi_keywords := [
    "मुफ्त डाउनलोड", "ऐप इंस्टॉल", "अपडेट जरूरी", "सुरक्षा पैच"]

/-- `self.scam_patterns`: the catalog in its (insertion-order preserving)
declaration order. -/
def scam_patterns : List (ThreatType × PatternSet) :=
  [(ThreatType.phishing, phishing_patterns),
   (ThreatType.otp_scam, otp_scam_patterns),
   (ThreatType.job_fraud, job_fraud_patterns),
   (ThreatType.fake_link, fake_link_patterns)]

/-- English keyword matches of one catalog entry: keywords whose lower-case
form occurs in the lower-cased message. -/
def english_matches (p : PatternSet) (message : String) : Nat :=
  (p.keywords.filter fun k => strContains (lowerString message) (lowerString k)).length

/-- Hindi keyword matches of one catalog entry: keywords occurring in the
original (case-sensitive) message. -/
def hindi_matches (p : PatternSet) (message : String) : Nat :=
  (p.hindi_keywords.filter fun k => strContains message k).length

/-- `total_matches` for one catalog entry. -/
def total_matches (p : PatternSet) (message : String) : Nat :=
  english_matches p message + hindi_matches p message

/-- `total_keywords`: combined size of the two keyword lists of one entry. -/
def total_keywords (p : PatternSet) : Nat :=
  p.keywords.length + p.hindi_keywords.length

/-- Per-candidate confidence `min(total_matches / total_keywords * 2, 1.0)`. -/
def catConfidence (p : PatternSet) (message : String) : ℚ :=
  ratMin ((total_matches p message : ℚ) / (total_keywords p : ℚ) * 2) 1

/-- `threats_found`: the candidate list, in catalog order, of categories with
a positive match count together with their confidence and match count. -/
def candidates (message : String) : List (ThreatType × ℚ × Nat) :=
  scam_patterns.filterMap fun tp =>
    if 0 < total_matches tp.2 message then
      some (tp.1, catConfidence tp.2 message, total_matches tp.2 message)
    else
      Option.none

/-- Python's `max(list, key=f)`: fold that replaces the current best only on a
strictly larger key, so the first maximal element wins. -/
def firstMaxAux {α : Type} (f : α → ℚ) (b : α) : List α → α
  | [] => b
  | c :: t => firstMaxAux f (if f b < f c then c else b) t

/-- `max(threats_found, key=lambda x: x[1])` over a possibly empty list. -/
def bestCandidate : List (ThreatType × ℚ × Nat) → Option (ThreatType × ℚ × Nat)
  | [] => Option.none
  | c :: t => some (firstMaxAux (fun x => x.2.1) c t)

/-- The result dictionary of an analysis. -/
structure Verdict where
  is_threat : Bool
  threat_type : ThreatType
  confidence : ℚ
  match_count : Nat
  explanation : String
  advice : String
  deriving DecidableEq, Repr

/-- `get_threat_explanation`: fixed explanation text per language and
category, with the dictionary-lookup default for an unknown category. -/
def get_threat_explanation (lang : Language) (t : ThreatType) : String :=
  match lang, t with
  | Language.english, ThreatType.phishing =>
      "This appears to be a phishing attempt - a fake message designed to steal your personal information, passwords, or financial details."
  | Language.english, ThreatType.otp_scam =>
      "This looks like an OTP scam where fraudsters try to trick you into sharing your One-Time Password or verification codes."
  | Language.english, ThreatType.job_fraud =>
      "This seems to be a job fraud scheme offering fake employment opportunities to steal money or personal information."
  | Language.english, ThreatType.fake_link =>
      "This message contains suspicious links that might lead to malicious websites or download harmful software."
  | Language.hindi, ThreatType.phishing =>
      "यह एक फिशिंग प्रयास लगता है - एक नकली संदेश जो आपकी व्यक्तिगत जानकारी, पासवर्ड या वित्तीय विवरण चुराने के लिए डिज़ाइन किया गया है।"
  | Language.hindi, ThreatType.otp_scam =>
      "यह एक OTP घोटाला लगता है जहाँ धोखेबाज आपको अपना वन-टाइम पासवर्ड या सत्यापन कोड साझा करने के लिए बरगलाने की कोशिश करते हैं।"
  | Language.hindi, ThreatType.job_fraud =>
      "यह एक नौकरी धोखाधड़ी योजना लगती है जो पैसे या व्यक्तिगत जानकारी चुराने के लिए नकली रोजगार के अवसर प्रदान करती है।"
  | Language.hindi, ThreatType.fake_link =>
      "इस संदेश में संदिग्ध लिंक हैं जो दुर्भावनापूर्ण वेबसाइटों पर ले जा सकते हैं या हानिकारक सॉफ्टवेयर डाउनलोड कर सकते हैं।"
  | _, ThreatType.none => "Unknown threat type detected."

/-- `get_threat_advice`: fixed advice text per language and category, with
the dictionary-lookup default for an unknown category. -/
def get_threat_advice (lang : Language) (t : ThreatType) : String :=
  match lang, t with
  | Language.english, ThreatType.phishing =>
      "• Do NOT click any links or download attachments\n• Do NOT provide personal information\n• Verify with the official organization directly\n• Report to cybercrime.gov.in"
  | Language.english, ThreatType.otp_scam =>
      "• NEVER share OTP, PIN, or verification codes with anyone\n• Banks/companies never ask for OTP over phone/message\n• If you shared OTP, immediately contact your bank\n• Block your cards if compromised"
  | Language.english, ThreatType.job_fraud =>
      "• Do NOT pay any registration or processing fees\n• Legitimate companies don\x27t ask for upfront payments\n• Verify company details independently\n• Report to local cyber police"
  | Language.english, ThreatType.fake_link =>
      "• Do NOT click on suspicious links\n• Type URLs manually in browser\n• Use antivirus software\n• Report phishing attempts"
  | Language.hindi, ThreatType.phishing =>
      "• किसी भी लिंक पर क्लिक न करें या अटैचमेंट डाउनलोड न करें\n• व्यक्तिगत जानकारी प्रदान न करें\n• आधिकारिक संगठन से सीधे सत्यापित करें\n• cybercrime.gov.in पर रिपोर्ट करें"
  | Language.hindi, ThreatType.otp_scam =>
      "• कभी भी OTP, PIN, या सत्यापन कोड किसी के साथ साझा न करें\n• बैंक/कंपनियां फोन/संदेश पर OTP नहीं मांगती\n• यदि OTP साझा किया है, तुरंत अपने बैंक से संपर्क करें\n• समझौता होने पर कार्ड ब्लॉक करें"
  | Language.hindi, ThreatType.job_fraud =>
      "• कोई रजिस्ट्रेशन या प्रोसेसिंग फीस न दें\n• वैध कंपनियां अग्रिम भुगतान नहीं मांगती\n• कंपनी के विवरण स्वतंत्र रूप से सत्यापित करें\n• स्थानीय साइबर पुलिस को रिपोर्ट करें"
  | Language.hindi, ThreatType.fake_link =>
      "• संदिग्ध लिंक पर क्लिक न करें\n• ब्राउज़र में URL मैन्युअल रूप से टाइप करें\n• एंटीवायरस सॉफ्टवेयर का उपयोग करें\n• फिशिंग प्रयासों की रिपोर्ट करें"
  | _, ThreatType.none => "Stay vigilant and report suspicious activities."

/-- `analyze_message_local`: keyword-based detection, winner by highest
confidence with Python's first-maximum tie-break, fixed safe verdict when no
category matches. -/
def analyze_message_local (lang : Language) (message : String) : Verdict :=
  match bestCandidate (candidates message) with
  | Option.none =>
      { is_threat := false
        threat_type := ThreatType.none
        confidence := 0
        match_count := 0
        explanation := "No obvious threat patterns detected."
        advice := "Message appears safe, but always remain cautious online." }
  | some best =>
      { is_threat := true
        threat_type := best.1
        confidence := best.2.1
        match_count := best.2.2
        explanation := get_threat_explanation lang best.1
        advice := get_threat_advice lang best.1 }

/-- The `emergency_keywords` list used by `analyze_message` (and verbatim by
the bot's `send_analysis_result`). -/
def emergency_keywords : List String :=
  ["shared otp", "gave otp", "sent money", "got scammed",
   "हो गया", "दिया", "भेज दिया", "धोखा"]

/-- `any(keyword in message.lower() for keyword in emergency_keywords)`. -/
def has_emergency_keyword (message : String) : Bool :=
  emergency_keywords.any fun k => strContains (lowerString message) k

/-- `analyze_message` of the CLI front end, as a function of the remote
outcome: the displayed verdict (Gemini result used as-is when present,
otherwise the local result) paired with whether `emergency_response` is
invoked.  In the source the emergency-keyword scan sits inside the
`if result['is_threat']` branch. -/
def analyze_message_flow (gem : Option Verdict) (lang : Language) (message : String) :
    Verdict × Bool :=
  let result :=
    match gem with
    | some v => v
    | Option.none => analyze_message_local lang message
  if result.is_threat then
    (result, has_emergency_keyword message)
  else
    (result, false)

/-- The classification half of `analyze_message`: the verdict the caller
receives from the remote-first waterfall. -/
def classify (gem : Option Verdict) (lang : Language) (message : String) : Verdict :=
  (analyze_message_flow gem lang message).1

/-- Whether the Telegram bot's `send_analysis_result` attaches the emergency
button for a given verdict and original message; the emergency-keyword scan
sits inside the `if result['is_threat']` branch there as well. -/
def send_analysis_result_escalates (result : Verdict) (original_message : String) : Bool :=
  if result.is_threat then has_emergency_keyword original_message else false

/-- Outcome of one Gemini call as seen by `analyze_message_with_gemini`:
no client configured, an exception from the request, or a response whose
`.text` is `None` or a string. -/
inductive GeminiOutcome where
  | noClient
  | requestError
  | responseText (text : Option String)
  deriving DecidableEq, Repr

/-- What `json.loads` can hand back on a successful parse, as far as the
adapter can observe: either a dict carrying the expected verdict fields, or
any other JSON value (an object missing the fields, a list, a string, a
number, ...).  The adapter performs no schema validation, so it cannot tell
these apart. -/
inductive PyValue where
  | verdict (v : Verdict)
  | other (payload : String)
  deriving DecidableEq, Repr

/-- Behaviour of `json.loads(response.text)`: it can raise `JSONDecodeError`
on syntactically invalid JSON (caught by the adapter's `except`), evaluate
to Python `None` (the JSON literal `null`), or evaluate to any other JSON
value. -/
inductive ParseOutcome where
  | raises
  | null
  | value (v : PyValue)
  deriving DecidableEq, Repr

/-- `analyze_message_with_gemini`, parameterised by the behaviour of
`json.loads` on the response text.  No client, a raised-and-caught request
exception, a missing or empty response text, a JSON-syntax error, or a
payload of JSON `null` all yield Python `None`; any other successfully
parsed JSON value is returned AS-IS — the source performs no schema
validation on the parsed payload. -/
def analyze_message_with_gemini (parse : String → ParseOutcome) :
    GeminiOutcome → Option PyValue
  | GeminiOutcome.noClient => Option.none
  | GeminiOutcome.requestError => Option.none
  | GeminiOutcome.responseText Option.none => Option.none
  | GeminiOutcome.responseText (some t) =>
      if t = "" then Option.none
      else
        match parse t with
        | ParseOutcome.raises => Option.none
        | ParseOutcome.null => Option.none
        | ParseOutcome.value v => some v

/-- Number of `generate_content` calls made by `analyze_message_with_gemini`:
zero without a client, exactly one otherwise (the body has no retry loop). -/
def gemini_attempts : GeminiOutcome → Nat
  | GeminiOutcome.noClient => 0
  | GeminiOutcome.requestError => 1
  | GeminiOutcome.responseText _ => 1

/-- A successful Safe Browsing response (`is_safe` plus optional threat
label), as consumed by `check_url_safety`; an absent value models an
unconfigured key, a non-200 status, or a raised-and-caught exception. -/
structure SafeBrowsingVerdict where
  is_safe : Bool
  threat_type : Option String
  deriving DecidableEq, Repr

/-- `suspicious_indicators` of `check_url_safety` in the CLI front end. -/
def suspicious_indicators : List String :=
  ["bit.ly", "tinyurl.com", "short.link", "rb.gy",
   "phishing", "malware", "suspicious-domain",
   "free-download", "urgent-update", "security-alert"]

/-- `any(indicator in url.lower() for indicator in suspicious_indicators)`. -/
def is_suspicious (url : String) : Bool :=
  suspicious_indicators.any fun i => strContains (lowerString url) i

/-- The indicators printed by the reporting loop of `check_url_safety`. -/
def matched_indicators (url : String) : List String :=
  suspicious_indicators.filter fun i => strContains (lowerString url) i

/-- Observable outcome of one URL check: which remote branch was taken,
whether the local heuristic ran, its flag, and the indicators it reported. -/
structure UrlCheckOutcome where
  sb_danger : Bool
  sb_safe_note : Bool
  heuristic_ran : Bool
  suspicious : Bool
  matched : List String
  deriving DecidableEq, Repr

/-- `check_url_safety` of the CLI front end as a function of the Safe
Browsing outcome: an unsafe remote verdict returns early; a safe remote
verdict prints its note and then falls through to the local heuristic, which
also runs when the remote result is absent. -/
def check_url_safety (sb : Option SafeBrowsingVerdict) (url : String) : UrlCheckOutcome :=
  match sb with
  | some v =>
      if v.is_safe = false then
        { sb_danger := true, sb_safe_note := false, heuristic_ran := false,
          suspicious := false, matched := [] }
      else
        { sb_danger := false, sb_safe_note := true, heuristic_ran := true,
          suspicious := is_suspicious url, matched := matched_indicators url }
  | Option.none =>
      { sb_danger := false, sb_safe_note := false, heuristic_ran := true,
        suspicious := is_suspicious url, matched := matched_indicators url }

namespace TelegramBot

/-- `suspicious_indicators` of the Telegram bot's `check_url` (a shorter
list than the CLI's). -/
def suspicious_indicators : List String :=
  ["bit.ly", "tinyurl.com", "short.link", "rb.gy",
   "phishing", "malware", "suspicious-domain"]

/-- The bot's local heuristic flag. -/
def is_suspicious (url : String) : Bool :=
  suspicious_indicators.any fun i => strContains (lowerString url) i

/-- `check_url` of the Telegram bot: any successful Safe Browsing response
(safe or unsafe) is reported on its own and the local heuristic runs only in
the `else` branch, when the remote result is absent; the bot reports no
individual matched indicators. -/
def check_url (sb : Option SafeBrowsingVerdict) (url : String) : UrlCheckOutcome :=
  match sb with
  | some v =>
      if v.is_safe = false then
        { sb_danger := true, sb_safe_note := false, heuristic_ran := false,
          suspicious := false, matched := [] }
      else
        { sb_danger := false, sb_safe_note := true, heuristic_ran := false,
          suspicious := false, matched := [] }
  | Option.none =>
      { sb_danger := false, sb_safe_note := false, heuristic_ran := true,
        suspicious := is_suspicious url, matched := [] }

end TelegramBot

example : candidates "otp" = [(ThreatType.otp_scam, 1/10, 1)] := by
  with_unfolding_all decide

example : (analyze_message_local Language.english "hello, how are you?").is_threat = false := by
  with_unfolding_all decide

example : has_emergency_keyword "I already sent money" = true := by
  with_unfolding_all decide

example : (check_url_safety Option.none "http://bit.ly/xyz").matched = ["bit.ly"] := by
  with_unfolding_all decide

lemma ratMin_eq_min (a b : ℚ) : ratMin a b = min a b := by
  unfold ratMin
  cases h : Rat.blt b a
  · have hab : a ≤ b := h
    simp [min_eq_left hab]
  · have hba : b < a := h
    simp [min_eq_right hba.le]

lemma startsList_iff (p s : List Char) : startsList p s = true ↔ ∃ r, s = p ++ r := by
  induction p generalizing s with
  | nil => simp [startsList]
  | cons a p ih =>
    cases s with
    | nil => simp [startsList]
    | cons b s =>
      simp only [startsList, Bool.and_eq_true, beq_iff_eq]
      constructor
      · rintro ⟨rfl, h⟩
        obtain ⟨r, rfl⟩ := (ih s).mp h
        exact ⟨r, rfl⟩
      · rintro ⟨r, hr⟩
        rw [List.cons_append] at hr
        injection hr with h1 h2
        exact ⟨h1.symm, (ih s).mpr ⟨r, h2⟩⟩

lemma hasSub_iff (p s : List Char) : hasSub p s = true ↔ ∃ l r, s = l ++ p ++ r := by
  induction s with
  | nil =>
    rw [show hasSub p [] = startsList p [] from rfl, startsList_iff]
    constructor
    · rintro ⟨r, hr⟩
      exact ⟨[], r, by simpa using hr⟩
    · rintro ⟨l, r, hr⟩
      have h0 : l ++ p ++ r = [] := hr.symm
      rw [List.append_eq_nil, List.append_eq_nil] at h0
      obtain ⟨⟨hl, hp⟩, hr0⟩ := h0
      exact ⟨r, by simp [hp, hr0]⟩
  | cons b s ih =>
    rw [show hasSub p (b :: s) = (startsList p (b :: s) || hasSub p s) from rfl,
      Bool.or_eq_true, startsList_iff, ih]
    constructor
    · rintro (⟨r, hr⟩ | ⟨l, r, hr⟩)
      · exact ⟨[], r, by simpa using hr⟩
      · exact ⟨b :: l, r, by simp [hr]⟩
    · rintro ⟨l, r, hr⟩
      cases l with
      | nil => exact Or.inl ⟨r, by simpa using hr⟩
      | cons y l =>
        rw [List.cons_append, List.cons_append] at hr
        injection hr with h1 h2
        exact Or.inr ⟨l, r, h2⟩

/-- Python's substring operator, characterised: `needle in haystack` holds
exactly when the needle's characters occur contiguously in the haystack. -/
lemma strContains_iff (haystack needle : String) :
    strContains haystack needle = true ↔
      ∃ l r, haystack.data = l ++ needle.data ++ r :=
  hasSub_iff needle.data haystack.data

lemma firstMaxAux_mem {α : Type} (f : α → ℚ) (t : List α) (b : α) :
    firstMaxAux f b t ∈ b :: t := by
  induction t generalizing b with
  | nil => simp [firstMaxAux]
  | cons c t ih =>
    rw [show firstMaxAux f b (c :: t) = firstMaxAux f (if f b < f c then c else b) t from rfl]
    by_cases h : f b < f c
    · rw [if_pos h]
      rcases List.mem_cons.mp (ih c) with h' | h'
      · rw [h']
        exact List.mem_cons_of_mem _ (List.mem_cons_self _ _)
      · exact List.mem_cons_of_mem _ (List.mem_cons_of_mem _ h')
    · rw [if_neg h]
      rcases List.mem_cons.mp (ih b) with h' | h'
      · rw [h']
        exact List.mem_cons_self _ _
      · exact List.mem_cons_of_mem _ (List.mem_cons_of_mem _ h')

/-- Characterisation of Python's `max(..., key=f)`: the returned element
splits the list so that everything before it has a strictly smaller key (it
is the FIRST maximum) and nothing in the list has a larger key. -/
lemma firstMaxAux_spec {α : Type} (f : α → ℚ) (t : List α) (b : α) :
    ∃ l₁ l₂, b :: t = l₁ ++ firstMaxAux f b t :: l₂ ∧
      (∀ x ∈ l₁, f x < f (firstMaxAux f b t)) ∧
      (∀ x ∈ b :: t, f x ≤ f (firstMaxAux f b t)) := by
  induction t generalizing b with
  | nil =>
    exact ⟨[], [], rfl, by simp, by simp [firstMaxAux]⟩
  | cons c t ih =>
    have hstep : firstMaxAux f b (c :: t) = firstMaxAux f (if f b < f c then c else b) t := rfl
    by_cases hbc : f b < f c
    · rw [if_pos hbc] at hstep
      obtain ⟨l₁, l₂, heq, hstrict, hle⟩ := ih c
      have hc : f c ≤ f (firstMaxAux f c t) := hle c (List.mem_cons_self _ _)
      refine ⟨b :: l₁, l₂, ?_, ?_, ?_⟩
      · rw [hstep, List.cons_append, ← heq]
      · intro x hx
        rcases List.mem_cons.mp hx with rfl | hx
        · rw [hstep]
          exact lt_of_lt_of_le hbc hc
        · rw [hstep]
          exact hstrict x hx
      · intro x hx
        rcases List.mem_cons.mp hx with rfl | hx
        · rw [hstep]
          exact (lt_of_lt_of_le hbc hc).le
        · rw [hstep]
          exact hle x hx
    · rw [if_neg hbc] at hstep
      have hcb : f c ≤ f b := le_of_not_lt hbc
      obtain ⟨l₁, l₂, heq, hstrict, hle⟩ := ih b
      have hb : f b ≤ f (firstMaxAux f b t) := hle b (List.mem_cons_self _ _)
      cases l₁ with
      | nil =>
        rw [List.nil_append] at heq
        injection heq with h1 h2
        refine ⟨[], c :: t, ?_, by simp, ?_⟩
        · rw [hstep, List.nil_append, ← h1, h2]
        · intro x hx
          rcases List.mem_cons.mp hx with rfl | hx
          · rw [hstep, ← h1]
          · rcases List.mem_cons.mp hx with rfl | hx
            · rw [hstep, ← h1]
              exact hcb
            · rw [hstep]
              exact hle x (List.mem_cons_of_mem _ hx)
      | cons y l₁ =>
        rw [List.cons_append] at heq
        injection heq with h1 h2
        refine ⟨b :: c :: l₁, l₂, ?_, ?_, ?_⟩
        · rw [hstep, List.cons_append, List.cons_append, ← h2]
        · intro x hx
          rcases List.mem_cons.mp hx with rfl | hx
          · rw [hstep]
            exact lt_of_le_of_lt (le_refl (f x)) (h1 ▸ hstrict y (List.mem_cons_self _ _))
          · rcases List.mem_cons.mp hx with rfl | hx
            · rw [hstep]
              exact lt_of_le_of_lt hcb (h1 ▸ hstrict y (List.mem_cons_self _ _))
            · rw [hstep]
              exact hstrict x (List.mem_cons_of_mem _ hx)
        · intro x hx
          rcases List.mem_cons.mp hx with rfl | hx
          · rw [hstep]
            exact hb
          · rcases List.mem_cons.mp hx with rfl | hx
            · rw [hstep]
              exact le_trans hcb hb
            · rw [hstep]
              exact hle x (List.mem_cons_of_mem _ hx)

lemma scam_patterns_facts {t : ThreatType} {p : PatternSet}
    (h : (t, p) ∈ scam_patterns) : 0 < total_keywords p ∧ t ≠ ThreatType.none := by
  simp only [scam_patterns, List.mem_cons, List.not_mem_nil, or_false] at h
  rcases h with h | h | h | h <;>
    · rw [Prod.mk.injEq] at h
      obtain ⟨h1, h2⟩ := h
      subst h1
      subst h2
      exact ⟨by decide, by decide⟩

lemma catConfidence_pos {p : PatternSet} (m : String)
    (hm : 0 < total_matches p m) (hk : 0 < total_keywords p) : 0 < catConfidence p m := by
  rw [catConfidence, ratMin_eq_min]
  apply lt_min
  · apply mul_pos
    · apply div_pos
      · exact_mod_cast hm
      · exact_mod_cast hk
    · norm_num
  · norm_num

lemma catConfidence_le_one (p : PatternSet) (m : String) : catConfidence p m ≤ 1 := by
  rw [catConfidence, ratMin_eq_min]
  exact min_le_right _ _

lemma catConfidence_nonneg (p : PatternSet) (m : String) : 0 ≤ catConfidence p m := by
  rw [catConfidence, ratMin_eq_min]
  apply le_min
  · apply mul_nonneg
    · exact div_nonneg (Nat.cast_nonneg _) (Nat.cast_nonneg _)
    · norm_num
  · norm_num

lemma mem_candidates {m : String} {cand : ThreatType × ℚ × Nat}
    (h : cand ∈ candidates m) :
    ∃ t p, (t, p) ∈ scam_patterns ∧ 0 < total_matches p m ∧
      cand = (t, catConfidence p m, total_matches p m) := by
  rw [candidates, List.mem_filterMap] at h
  obtain ⟨⟨t, p⟩, hmem, heq⟩ := h
  simp only at heq
  split at heq
  · next hm => exact ⟨t, p, hmem, hm, (Option.some.inj heq).symm⟩
  · next => exact absurd heq (by simp)

lemma candidate_bounds {m : String} {cand : ThreatType × ℚ × Nat}
    (h : cand ∈ candidates m) :
    0 < cand.2.1 ∧ cand.2.1 ≤ 1 ∧ cand.1 ≠ ThreatType.none := by
  obtain ⟨t, p, hmem, hm, rfl⟩ := mem_candidates h
  obtain ⟨hk, hne⟩ := scam_patterns_facts hmem
  exact ⟨catConfidence_pos m hm hk, catConfidence_le_one p m, hne⟩

lemma analyze_message_local_of_nil {m : String} (lang : Language)
    (h : candidates m = []) :
    analyze_message_local lang m =
      { is_threat := false
        threat_type := ThreatType.none
        confidence := 0
        match_count := 0
        explanation := "No obvious threat patterns detected."
        advice := "Message appears safe, but always remain cautious online." } := by
  unfold analyze_message_local
  rw [h]
  rfl

lemma analyze_message_local_of_cons {m : String} (lang : Language)
    {c : ThreatType × ℚ × Nat} {rest : List (ThreatType × ℚ × Nat)}
    (h : candidates m = c :: rest) :
    analyze_message_local lang m =
      { is_threat := true
        threat_type := (firstMaxAux (fun x => x.2.1) c rest).1
        confidence := (firstMaxAux (fun x => x.2.1) c rest).2.1
        match_count := (firstMaxAux (fun x => x.2.1) c rest).2.2
        explanation := get_threat_explanation lang (firstMaxAux (fun x => x.2.1) c rest).1
        advice := get_threat_advice lang (firstMaxAux (fun x => x.2.1) c rest).1 } := by
  unfold analyze_message_local
  rw [h]
  rfl

lemma catConfidence_eq (p : PatternSet) (m : String) :
    catConfidence p m =
      min ((total_matches p m : ℚ) / (total_keywords p : ℚ) * 2) 1 := by
  rw [catConfidence, ratMin_eq_min]

/-- Claim C2: `classify` is a strict waterfall: a remote verdict, when
present, is used as-is without consulting the local classifier; when the
remote path yields nothing the result is exactly the local classifier's
verdict (so it is never empty or undefined). -/
theorem classify_waterfall :
    (∀ (v : Verdict) (lang : Language) (m : String), classify (some v) lang m = v) ∧
    (∀ (lang : Language) (m : String),
      classify Option.none lang m = analyze_message_local lang m) := by
  constructor
  · intro v lang m
    unfold classify analyze_message_flow
    by_cases h : v.is_threat <;> simp [h]
  · intro lang m
    unfold classify analyze_message_flow
    by_cases h : (analyze_message_local lang m).is_threat <;> simp [h]

/-- Claim C3: every local verdict satisfies the invariant: a non-threat
verdict carries category `none` and confidence `0`, and a threat verdict
carries positive confidence and a category other than `none`. -/
theorem local_verdict_invariant (lang : Language) (m : String) :
    ((analyze_message_local lang m).is_threat = false →
      (analyze_message_local lang m).threat_type = ThreatType.none ∧
      (analyze_message_local lang m).confidence = 0) ∧
    ((analyze_message_local lang m).is_threat = true →
      0 < (analyze_message_local lang m).confidence ∧
      (analyze_message_local lang m).threat_type ≠ ThreatType.none) := by
  cases h : candidates m with
  | nil =>
    rw [analyze_message_local_of_nil lang h]
    exact ⟨fun _ => ⟨rfl, rfl⟩, fun hc => Bool.noConfusion hc⟩
  | cons c rest =>
    rw [analyze_message_local_of_cons lang h]
    have hmem : firstMaxAux (fun x => x.2.1) c rest ∈ candidates m := by
      rw [h]
      exact firstMaxAux_mem _ rest c
    obtain ⟨hpos, _, hne⟩ := candidate_bounds hmem
    exact ⟨fun hc => Bool.noConfusion hc, fun _ => ⟨hpos, hne⟩⟩

/-- Witness for C3 at the concrete threat message "otp". -/
theorem local_verdict_invariant_witness :
    0 < (analyze_message_local Language.english "otp").confidence ∧
    (analyze_message_local Language.english "otp").threat_type ≠ ThreatType.none :=
  (local_verdict_invariant Language.english "otp").2 (by with_unfolding_all decide)

/-- Claim C4: a candidate category's confidence is exactly
`min(total_matches / total_keywords * 2, 1)` with `total_keywords` the
combined size of both language lists, and the returned confidence always
lies in `[0, 1]`. -/
theorem confidence_formula_and_range (lang : Language) (m : String)
    (t : ThreatType) (p : PatternSet)
    (hmem : (t, p) ∈ scam_patterns) (hpos : 0 < total_matches p m) :
    ((t, min ((total_matches p m : ℚ) / (total_keywords p : ℚ) * 2) 1,
        total_matches p m) ∈ candidates m) ∧
    0 ≤ (analyze_message_local lang m).confidence ∧
    (analyze_message_local lang m).confidence ≤ 1 := by
  constructor
  · rw [candidates, List.mem_filterMap]
    refine ⟨(t, p), hmem, ?_⟩
    simp only
    rw [if_pos hpos, catConfidence_eq]
  · cases h : candidates m with
    | nil =>
      rw [analyze_message_local_of_nil lang h]
      norm_num
    | cons c rest =>
      rw [analyze_message_local_of_cons lang h]
      have hmem2 : firstMaxAux (fun x => x.2.1) c rest ∈ candidates m := by
        rw [h]
        exact firstMaxAux_mem _ rest c
      obtain ⟨hpos2, hle2, _⟩ := candidate_bounds hmem2
      exact ⟨hpos2.le, hle2⟩

/-- Witness for C4 at the concrete message "otp" and the otp_scam entry. -/
theorem confidence_formula_and_range_witness :
    ((ThreatType.otp_scam,
        min ((total_matches otp_scam_patterns "otp" : ℚ) /
          (total_keywords otp_scam_patterns : ℚ) * 2) 1,
        total_matches otp_scam_patterns "otp") ∈ candidates "otp") ∧
    0 ≤ (analyze_message_local Language.english "otp").confidence ∧
    (analyze_message_local Language.english "otp").confidence ≤ 1 :=
  confidence_formula_and_range Language.english "otp" ThreatType.otp_scam otp_scam_patterns
    (by with_unfolding_all decide) (by with_unfolding_all decide)

/-- Claim C5: when candidates exist, the returned verdict is the candidate
with the highest confidence, and on ties the candidate that appears earlier
in the (fixed) catalog enumeration order phishing, otp_scam, job_fraud,
fake_link wins: the winner splits the candidate list so that every earlier
candidate has a strictly smaller confidence and no candidate has a larger
one.  Determinism is inherent: the classifier is a pure function of its
input. -/
theorem winner_first_max (lang : Language) (m : String)
    (c : ThreatType × ℚ × Nat) (rest : List (ThreatType × ℚ × Nat))
    (h : candidates m = c :: rest) :
    scam_patterns.map Prod.fst =
      [ThreatType.phishing, ThreatType.otp_scam, ThreatType.job_fraud,
       ThreatType.fake_link] ∧
    ∃ l₁ l₂,
      candidates m =
        l₁ ++ ((analyze_message_local lang m).threat_type,
               (analyze_message_local lang m).confidence,
               (analyze_message_local lang m).match_count) :: l₂ ∧
      (∀ x ∈ l₁, x.2.1 < (analyze_message_local lang m).confidence) ∧
      (∀ x ∈ candidates m, x.2.1 ≤ (analyze_message_local lang m).confidence) := by
  refine ⟨rfl, ?_⟩
  rw [analyze_message_local_of_cons lang h]
  obtain ⟨l₁, l₂, heq, hstrict, hle⟩ := firstMaxAux_spec (fun x => x.2.1) rest c
  refine ⟨l₁, l₂, ?_, ?_, ?_⟩
  · rw [h]
    exact heq
  · intro x hx
    exact hstrict x hx
  · intro x hx
    rw [h] at hx
    exact hle x hx

/-- Witness for C5 at the concrete message "otp". -/
theorem winner_first_max_witness :
    (scam_patterns.map Prod.fst =
      [ThreatType.phishing, ThreatType.otp_scam, ThreatType.job_fraud,
       ThreatType.fake_link]) ∧
    ∃ l₁ l₂,
      candidates "otp" =
        l₁ ++ ((analyze_message_local Language.english "otp").threat_type,
               (analyze_message_local Language.english "otp").confidence,
               (analyze_message_local Language.english "otp").match_count) :: l₂ ∧
      (∀ x ∈ l₁, x.2.1 < (analyze_message_local Language.english "otp").confidence) ∧
      (∀ x ∈ candidates "otp",
        x.2.1 ≤ (analyze_message_local Language.english "otp").confidence) :=
  winner_first_max Language.english "otp" (ThreatType.otp_scam, 1/10, 1) []
    (by with_unfolding_all decide)

/-- Claim C6: the local classifier is total, and any message in which no
catalog keyword of either language occurs — the empty string included —
yields the fixed non-threat verdict with its fixed explanation text. -/
theorem no_match_safe_verdict (lang : Language) (m : String)
    (h : ∀ tp ∈ scam_patterns, total_matches tp.2 m = 0) :
    analyze_message_local lang m =
      { is_threat := false
        threat_type := ThreatType.none
        confidence := 0
        match_count := 0
        explanation := "No obvious threat patterns detected."
        advice := "Message appears safe, but always remain cautious online." } := by
  apply analyze_message_local_of_nil
  rw [candidates, List.filterMap_eq_nil_iff]
  intro tp htp
  simp [h tp htp]

/-- Witness for C6 at the empty string. -/
theorem no_match_safe_verdict_witness :
    analyze_message_local Language.english "" =
      { is_threat := false
        threat_type := ThreatType.none
        confidence := 0
        match_count := 0
        explanation := "No obvious threat patterns detected."
        advice := "Message appears safe, but always remain cautious online." } :=
  no_match_safe_verdict Language.english "" (by with_unfolding_all decide)

/-- Claim C10: the threat-relevant fields of the local verdict (is_threat,
threat_type, confidence, match_count) do not depend on the language setting;
both keyword lists are matched regardless, and the language only selects the
explanation and advice text. -/
theorem language_independence (m : String) (l₁ l₂ : Language) :
    (analyze_message_local l₁ m).is_threat = (analyze_message_local l₂ m).is_threat ∧
    (analyze_message_local l₁ m).threat_type = (analyze_message_local l₂ m).threat_type ∧
    (analyze_message_local l₁ m).confidence = (analyze_message_local l₂ m).confidence ∧
    (analyze_message_local l₁ m).match_count = (analyze_message_local l₂ m).match_count := by
  cases h : candidates m with
  | nil =>
    rw [analyze_message_local_of_nil l₁ h, analyze_message_local_of_nil l₂ h]
    exact ⟨rfl, rfl, rfl, rfl⟩
  | cons c rest =>
    rw [analyze_message_local_of_cons l₁ h, analyze_message_local_of_cons l₂ h]
    exact ⟨rfl, rfl, rfl, rfl⟩

/-- Claim C1 (counterexample): escalation is NOT independent of the
classification outcome.  The message "I already sent money" contains the
distress phrase "sent money", yet because it matches no catalog keyword the
verdict is non-threat and `analyze_message` never reaches the
emergency-keyword scan, so no escalation fires. -/
theorem escalation_gated_counterexample :
    has_emergency_keyword "I already sent money" = true ∧
    (analyze_message_flow Option.none Language.english "I already sent money").2 = false := by
  with_unfolding_all decide

/-- Claim C1 (amended): the distress-phrase check itself depends only on the
raw message, but both front ends evaluate it only inside the threat branch:
the escalation signal equals `is_threat AND contains-distress-phrase`, so a
non-threat verdict never escalates even when distress language is present. -/
theorem escalation_flag_requires_threat (gem : Option Verdict) (lang : Language)
    (m : String) :
    (analyze_message_flow gem lang m).2 =
      ((analyze_message_flow gem lang m).1.is_threat && has_emergency_keyword m) ∧
    ∀ r : Verdict,
      send_analysis_result_escalates r m = (r.is_threat && has_emergency_keyword m) := by
  constructor
  · cases gem with
    | some v =>
      unfold analyze_message_flow
      by_cases h : v.is_threat <;> simp [h]
    | none =>
      unfold analyze_message_flow
      by_cases h : (analyze_message_local lang m).is_threat <;> simp [h]
  · intro r
    unfold send_analysis_result_escalates
    by_cases h : r.is_threat <;> simp [h]

/-- Claim C7 (counterexample): a malformed but JSON-valid response is NOT
treated as "no verdict".  With a response text that parses to a JSON object
carrying only a `foo` field — no verdict fields at all — `json.loads`
succeeds, and `analyze_message_with_gemini` returns that payload as a
non-absent substitute value: the source performs no schema validation. -/
theorem gemini_substitute_counterexample :
    analyze_message_with_gemini
        (fun _ => ParseOutcome.value (PyValue.other "\x7b\x22foo\x22: 1\x7d"))
        (GeminiOutcome.responseText (some "\x7b\x22foo\x22: 1\x7d")) =
      some (PyValue.other "\x7b\x22foo\x22: 1\x7d") ∧
    analyze_message_with_gemini
        (fun _ => ParseOutcome.value (PyValue.other "\x7b\x22foo\x22: 1\x7d"))
        (GeminiOutcome.responseText (some "\x7b\x22foo\x22: 1\x7d")) ≠
      Option.none := by
  with_unfolding_all decide

/-- Claim C7 (amended): the adapter never raises to the caller and makes at
most one service call per invocation; service absence (no client), a raised
request exception, a missing or empty response text, a JSON-SYNTAX-invalid
response (json.loads raising), and a response parsing to JSON null all
yield the absent signal; but a syntactically valid JSON payload — well
formed as a verdict or not — is returned as-is, with no schema validation,
and every non-absent return value is exactly what the parser produced. -/
theorem gemini_failure_behaviour (parse : String → ParseOutcome) (o : GeminiOutcome) :
    gemini_attempts o ≤ 1 ∧
    (o = GeminiOutcome.noClient ∨ o = GeminiOutcome.requestError ∨
        o = GeminiOutcome.responseText Option.none →
      analyze_message_with_gemini parse o = Option.none) ∧
    (∀ t, parse t = ParseOutcome.raises →
      analyze_message_with_gemini parse (GeminiOutcome.responseText (some t)) =
        Option.none) ∧
    (∀ t, parse t = ParseOutcome.null →
      analyze_message_with_gemini parse (GeminiOutcome.responseText (some t)) =
        Option.none) ∧
    (∀ t pv, t ≠ "" → parse t = ParseOutcome.value pv →
      analyze_message_with_gemini parse (GeminiOutcome.responseText (some t)) =
        some pv) ∧
    (∀ pv, analyze_message_with_gemini parse o = some pv →
      ∃ t, o = GeminiOutcome.responseText (some t) ∧ t ≠ "" ∧
        parse t = ParseOutcome.value pv) := by
  refine ⟨?_, ?_, ?_, ?_, ?_, ?_⟩
  · cases o <;> simp [gemini_attempts]
  · rintro (rfl | rfl | rfl) <;> rfl
  · intro t ht
    simp only [analyze_message_with_gemini]
    by_cases h : t = "" <;> simp [h, ht]
  · intro t ht
    simp only [analyze_message_with_gemini]
    by_cases h : t = "" <;> simp [h, ht]
  · intro t pv hne ht
    simp only [analyze_message_with_gemini]
    simp [hne, ht]
  · intro pv hv
    cases o with
    | noClient => simp [analyze_message_with_gemini] at hv
    | requestError => simp [analyze_message_with_gemini] at hv
    | responseText text =>
      cases text with
      | none => simp [analyze_message_with_gemini] at hv
      | some t =>
        refine ⟨t, rfl, ?_, ?_⟩
        · intro h
          rw [h] at hv
          simp [analyze_message_with_gemini] at hv
        · simp only [analyze_message_with_gemini] at hv
          split at hv
          · exact absurd hv (by simp)
          · split at hv
            · exact absurd hv (by simp)
            · exact absurd hv (by simp)
            · next v heq =>
                rw [heq]
                rw [Option.some.inj hv]

/-- Witness for C7 (amended): a raised request exception and a
JSON-syntax-invalid response text both yield the absent signal, and a
JSON-valid payload is passed through as-is. -/
theorem gemini_failure_behaviour_witness :
    analyze_message_with_gemini (fun _ => ParseOutcome.raises)
      GeminiOutcome.requestError = Option.none ∧
    analyze_message_with_gemini (fun _ => ParseOutcome.raises)
      (GeminiOutcome.responseText (some "not json")) = Option.none ∧
    analyze_message_with_gemini (fun _ => ParseOutcome.value (PyValue.other "3"))
      (GeminiOutcome.responseText (some "3")) = some (PyValue.other "3") :=
  ⟨(gemini_failure_behaviour (fun _ => ParseOutcome.raises)
      GeminiOutcome.requestError).2.1 (Or.inr (Or.inl rfl)),
   (gemini_failure_behaviour (fun _ => ParseOutcome.raises)
      (GeminiOutcome.responseText (some "not json"))).2.2.1 "not json" rfl,
   (gemini_failure_behaviour (fun _ => ParseOutcome.value (PyValue.other "3"))
      (GeminiOutcome.responseText (some "3"))).2.2.2.2.1 "3" (PyValue.other "3")
      (by decide) rfl⟩

/-- Claim C8 (counterexample): in the CLI front end a successful SAFE
Safe-Browsing response does not skip the local heuristic: for
"http://bit.ly/xyz" the heuristic still runs and still flags the URL. -/
theorem url_heuristic_runs_after_safe_remote :
    (check_url_safety (some { is_safe := true, threat_type := Option.none })
        "http://bit.ly/xyz").heuristic_ran = true ∧
    (check_url_safety (some { is_safe := true, threat_type := Option.none })
        "http://bit.ly/xyz").suspicious = true := by
  with_unfolding_all decide

/-- Claim C8 (amended): the remote service is tried first and an UNSAFE
remote verdict pre-empts the heuristic in both front ends; but in the CLI a
SAFE remote verdict is still followed by the local heuristic, and only the
Telegram bot skips the heuristic for every successful remote response.  The
heuristic runs in both front ends when the remote result is absent. -/
theorem url_waterfall_amended :
    (∀ (url : String) (v : SafeBrowsingVerdict), v.is_safe = false →
      check_url_safety (some v) url =
        { sb_danger := true, sb_safe_note := false, heuristic_ran := false,
          suspicious := false, matched := [] } ∧
      TelegramBot.check_url (some v) url =
        { sb_danger := true, sb_safe_note := false, heuristic_ran := false,
          suspicious := false, matched := [] }) ∧
    (∀ (url : String) (v : SafeBrowsingVerdict), v.is_safe = true →
      (check_url_safety (some v) url).heuristic_ran = true ∧
      (TelegramBot.check_url (some v) url).heuristic_ran = false) ∧
    (∀ url : String,
      (check_url_safety Option.none url).heuristic_ran = true ∧
      (TelegramBot.check_url Option.none url).heuristic_ran = true) := by
  refine ⟨?_, ?_, ?_⟩
  · intro url v hv
    constructor <;> simp [check_url_safety, TelegramBot.check_url, hv]
  · intro url v hv
    constructor <;> simp [check_url_safety, TelegramBot.check_url, hv]
  · intro url
    constructor <;> simp [check_url_safety, TelegramBot.check_url]

/-- Witness for C8 (amended) at concrete remote verdicts and URLs. -/
theorem url_waterfall_amended_witness :
    (check_url_safety (some { is_safe := false, threat_type := Option.none })
        "http://example.com" =
      { sb_danger := true, sb_safe_note := false, heuristic_ran := false,
        suspicious := false, matched := [] }) ∧
    (TelegramBot.check_url (some { is_safe := true, threat_type := Option.none })
        "http://bit.ly/xyz").heuristic_ran = false :=
  ⟨(url_waterfall_amended.1 "http://example.com"
      { is_safe := false, threat_type := Option.none } rfl).1,
   (url_waterfall_amended.2.1 "http://bit.ly/xyz"
      { is_safe := true, threat_type := Option.none } rfl).2⟩

/-- Claim C9: with the reputation service absent, the heuristic flags a URL
unsafe exactly when some suspicious indicator occurs as a substring of the
lower-cased URL, and the reported list contains precisely the indicators
that matched; concretely "http://bit.ly/xyz" is flagged with "bit.ly". -/
theorem url_heuristic_spec (url : String) :
    ((check_url_safety Option.none url).suspicious = true ↔
      ∃ i ∈ suspicious_indicators, ∃ l r,
        (lowerString url).data = l ++ i.data ++ r) ∧
    (∀ i, i ∈ (check_url_safety Option.none url).matched ↔
      i ∈ suspicious_indicators ∧ strContains (lowerString url) i = true) ∧
    (check_url_safety Option.none "http://bit.ly/xyz").suspicious = true ∧
    "bit.ly" ∈ (check_url_safety Option.none "http://bit.ly/xyz").matched := by
  refine ⟨?_, ?_, ?_, ?_⟩
  · show is_suspicious url = true ↔ _
    rw [is_suspicious, List.any_eq_true]
    constructor
    · rintro ⟨i, hi, hs⟩
      exact ⟨i, hi, (strContains_iff _ _).mp hs⟩
    · rintro ⟨i, hi, hs⟩
      exact ⟨i, hi, (strContains_iff _ _).mpr hs⟩
  · intro i
    show i ∈ matched_indicators url ↔ _
    rw [matched_indicators, List.mem_filter]
  · with_unfolding_all decide
  · with_unfolding_all decide

end CyberRakshak
